import Mathlib

/-!
Verification of the xmeml fast iterative parser (`xmeml/iter.py`).

The Python module is shallowly embedded below: Python floats are modelled as
rationals (`ℚ`) except where the source performs transcendental math
(`Volume`, which uses `log10`/`**` and is modelled over `ℝ`), fallible code
paths (Python exceptions) are modelled with `Except`, and the `logging`
side-channel is modelled as an explicit list of emitted log events where a
claim depends on it.
-/

namespace Xmeml

/-- Severity levels of the `logging` calls in the source. -/
inductive LogLevel
  | debug
  | info
  | warning
  | error
deriving DecidableEq, Repr

/-- Python exception kinds raised by the modelled code paths
(`TypeError` from e.g. `float(None)` or `None > x`, `AttributeError`
from attribute access on `None` or on a missing attribute). -/
inductive PyErr
  | typeError
  | attributeError
deriving DecidableEq, Repr

/-- `float(x)` applied to an optional value: `float(None)` raises `TypeError`. -/
def pyFloat : Option ℚ → Except PyErr ℚ
  | none => .error .typeError
  | some q => .ok q

/-- Python `str.upper()` on the ASCII strings the documents carry. -/
def pyUpper (s : String) : String := ⟨s.data.map Char.toUpper⟩

/-- Module-level `getframerate(timebase, ntsc)`.

Returns the pair the Python function returns — `None` (modelled `none`) on an
unhandled timebase, `(None, None)` (modelled `some (none, none)`) on an absent
timebase, and `(fps, label)` otherwise — together with the log events emitted
during the call. -/
def getframerate (timebase : Option ℚ) (ntsc : Bool) :
    Option (Option ℚ × Option String) × List (LogLevel × String) :=
  match timebase with
  | none => (some (none, none), [(.debug, "getframerate: timebase is None, returning None")])
  | some tb =>
    if tb = 24 then
      (if ntsc then some (some (23.976 : ℚ), some "24P") else some (some 24, some "Film"), [])
    else if tb = 25 then
      (some (some 25, some "PAL"), [])
    else if tb = 30 then
      (if ntsc then some (some (29.97 : ℚ), some "NTSC/HD")
       else some (some 30, some "Video/HD"), [])
    else if tb = 50 then
      (some (some 50, some "HD (50Hz)"), [])
    else if tb = 60 then
      (if ntsc then some (some (59.94 : ℚ), some "HD (59.94Hz)")
       else some (some 60, some "HD (60Hz)"), [])
    else
      (none, [(.warning, "getframerate: got an unhandled timebase: %r (ntsc=%r)")])

/-- The exception classes of the module.  `XmemlError` is the abstract base;
the concrete classes raised are `XmemlFileError` (carrying a message) and
`XmemlNoTransitionError`. -/
inductive XmemlErr
  | xmemlFileError (msg : String)
  | xmemlNoTransitionError
deriving DecidableEq, Repr

/-- Whether a raised exception is (an instance of) `XmemlFileError`:
the only type-level discrimination available to a caller. -/
def XmemlErr.isFileError : XmemlErr → Bool
  | .xmemlFileError _ => true
  | .xmemlNoTransitionError => false

/-- `Range`: a pair of frame positions.  The source field `end` is a Lean
keyword and is modelled as `stop`.  Claims quantify over *complete* ranges
(both endpoints set), so the `None`-endpoint state of the Python class is not
modelled. -/
structure Range where
  start : ℚ
  stop : ℚ
deriving DecidableEq, Repr

/-- `Range.extend(iterable)`: grow the receiver to cover the other pair
(`if start < self.start: self.start = start; if end > self.end: self.end = end`). -/
def Range.extendWith (self other : Range) : Range :=
  ⟨if other.start < self.start then other.start else self.start,
   if other.stop > self.stop then other.stop else self.stop⟩

/-- `Range.overlaps(other)`:
`other.start <= self.start <= other.end or self.start <= other.start <= self.end`. -/
def Range.overlaps (self other : Range) : Bool :=
  (other.start ≤ self.start && self.start ≤ other.stop) ||
  (self.start ≤ other.start && other.start ≤ self.stop)

/-- `len(Range)`: `int(end - start)`.  Python `int()` truncates toward zero;
on the nonnegative differences arising in the claims this coincides with
`floor`, which is used here. -/
def Range.len (r : Range) : ℤ := ⌊r.stop - r.start⌋

/-- `Ranges.extend(otherrange)` acting on the member list `self.r`:
scan members in order; on an equal member do nothing, on the first
overlapping member grow it in place, otherwise append at the end. -/
def extendMembers : List Range → Range → List Range
  | [], n => [n]
  | r :: rs, n =>
    if r = n then r :: rs
    else if r.overlaps n then r.extendWith n :: rs
    else r :: extendMembers rs n

/-- `Ranges`: member list plus the framerate stored at construction. -/
structure Ranges where
  r : List Range
  framerate : ℚ
deriving DecidableEq, Repr

/-- `Ranges.__init__(range=None, framerate=None)`: starts with `r = []`,
extends with `range` when given, then does `self.framerate = float(framerate)`
— which raises `TypeError` when `framerate` is `None`. -/
def Ranges.init (range : Option Range) (framerate : Option ℚ) : Except PyErr Ranges :=
  match pyFloat framerate with
  | .error e => .error e
  | .ok fr =>
    .ok ⟨match range with
         | none => []
         | some rg => extendMembers [] rg, fr⟩

/-- `len(Ranges)`: sum of the member lengths. -/
def Ranges.len (rs : Ranges) : ℤ := (rs.r.map Range.len).sum

/-- `AUDIOTHRESHOLD = 0.0001`, the default `audibleframes` threshold. -/
def AUDIOTHRESHOLD : ℚ := 0.0001

/-- `Volume`: gain/decibel converter.  Both fields start as `None`; a *truthy*
`gain` argument (not `None` and not `0.0`) sets both fields from the gain, and
a truthy `decibel` argument then overwrites both from the decibel value.
Transcendental float math is modelled over `ℝ`. -/
structure Volume where
  gain : Option ℝ
  decibel : Option ℝ

/-- `Volume.__init__(gain=None, decibel=None)`. -/
noncomputable def Volume.init (gain decibel : Option ℝ) : Volume :=
  let v0 : Volume := ⟨none, none⟩
  let v1 : Volume :=
    match gain with
    | some g => if g ≠ 0 then ⟨some g, some (20 * Real.logb 10 g)⟩ else v0
    | none => v0
  match decibel with
  | some d => if d ≠ 0 then ⟨some ((10 : ℝ) ^ (d / 20)), some d⟩ else v1
  | none => v1

/-- A `File` as the enumerator consumes it: only `mediatype`
(`"video"` or `"audio"`) is algorithmically relevant. -/
structure FileRef where
  mediatype : String
deriving DecidableEq, Repr

/-- An `Effect` view: `enabled` holds the value resolved at construction from
the *parent* element's `enabled` text (default `True`).  `parameters` is
`none` when the effect has no `<parameter>` child — in that case the Python
attribute is never assigned and reading it raises `AttributeError`; with a
`<parameter>` child it is the (possibly empty) list of `(when, value)`
keyframes and `value` is parsed with default `0.0`. -/
structure Effect where
  name : Option String
  effectid : Option String
  enabled : Bool
  parameters : Option (List (ℚ × ℚ))
  value : Option ℚ
deriving DecidableEq, Repr

/-- A `transitionitem` with its positioned fields. -/
structure TransNode where
  start : ℚ
  stop : ℚ
deriving DecidableEq, Repr

/-- `TransitionItem.centerframe = start + (end - start) / 2`. -/
def TransNode.centerframe (t : TransNode) : ℚ := t.start + (t.stop - t.start) / 2

/-- The raw document fields a `clipitem` element provides to
`ClipItem.__init__`.  `prevTransition`/`follTransition` are the nearest
preceding/following `transitionitem` siblings (`none` when the xpath lookup
finds nothing and `XmemlNoTransitionError` is raised internally).  `file` is
the already-resolved registry lookup (`none` when absent or unknown id).
`inpoint`/`outpoint` are Python ints in the source; they are modelled in `ℚ`
because every use compares or mixes them with float keyframe positions. -/
structure ClipNode where
  name : Option String
  id : Option String
  timebase : Option ℚ
  ntsc : Bool
  start : ℚ
  stop : ℚ
  inpoint : ℚ
  outpoint : ℚ
  prevTransition : Option TransNode
  follTransition : Option TransNode
  file : Option FileRef
  mediatype : Option String
  isnestedsequence : Bool
  enabledText : Option String
  filters : List Effect
deriving DecidableEq, Repr

/-- A constructed `ClipItem` view (derived fields materialized). -/
structure ClipItem where
  name : Option String
  id : Option String
  timebase : Option ℚ
  ntsc : Bool
  start : ℚ
  stop : ℚ
  inpoint : ℚ
  outpoint : ℚ
  sequenceframerate : Option (Option ℚ × Option String)
  file : Option FileRef
  mediatype : Option String
  isnestedsequence : Bool
  enabled : Bool
  filters : List Effect
deriving DecidableEq, Repr

/-- `ClipItem.__init__`: swap a reversed `in`/`out` pair, then resolve the
`-1` start/end sentinels from the adjacent transition's centerframe; when no
transition exists the internal `XmemlNoTransitionError` is caught, a warning
is logged and the sentinel is kept.  Construction never propagates an
exception for a missing transition.  Returns the clip and the emitted log
events. -/
def ClipItem.init (seqrate : Option (Option ℚ × Option String)) (n : ClipNode) :
    ClipItem × List (LogLevel × String) :=
  let inp := if n.inpoint > n.outpoint then n.outpoint else n.inpoint
  let outp := if n.inpoint > n.outpoint then n.inpoint else n.outpoint
  let startLogs : ℚ × List (LogLevel × String) :=
    if n.start = -1 then
      match n.prevTransition with
      | some t => (t.centerframe, [])
      | none =>
        (n.start,
         [(.warning,
           "Could not figure out start point of clip. Please double check this clip: %r")])
    else (n.start, [])
  let stopLogs : ℚ × List (LogLevel × String) :=
    if n.stop = -1 then
      match n.follTransition with
      | some t => (t.centerframe, [])
      | none =>
        (n.stop,
         [(.warning,
           "Could not figure out end point of clip. Please double check this clip: %r")])
    else (n.stop, [])
  let enabled :=
    match n.enabledText with
    | none => true
    | some s => pyUpper s ≠ "FALSE"
  (⟨n.name, n.id, n.timebase, n.ntsc, startLogs.1, stopLogs.1, inp, outp, seqrate,
    n.file, n.mediatype, n.isnestedsequence, enabled, n.filters⟩,
   startLogs.2 ++ stopLogs.2)

/-- `ClipItem.getlevels()`: first enabled filter effect whose `effectid` is
`"audiolevels"` (disabled effects are skipped, the scan continues). -/
def ClipItem.getlevels (c : ClipItem) : Option Effect :=
  c.filters.find? fun e => e.enabled && e.effectid == some "audiolevels"

/-- `ClipItem.getgain()`: first enabled filter effect named `"Gain"`. -/
def ClipItem.getgain (c : ClipItem) : Option Effect :=
  c.filters.find? fun e => e.enabled && e.name == some "Gain"

/-- `ClipItem.getframerate()`: reads `self.file.mediatype` — an
`AttributeError` when `file` is `None` — and returns the sequence framerate
for audio files, else the `Item` lookup `getframerate(timebase, ntsc)`
(whose log side-channel is global in the source and dropped here). -/
def ClipItem.getframerate (c : ClipItem) :
    Except PyErr (Option (Option ℚ × Option String)) :=
  match c.file with
  | none => .error .attributeError
  | some f =>
    if f.mediatype = "audio" then .ok c.sequenceframerate
    else .ok (Xmeml.getframerate c.timebase c.ntsc).1

/-- The `while self.inpoint > keyframelist[i][0]` scan of `audibleframes`:
walk forward; where `inpoint` falls between two keyframes, insert a synthetic
keyframe at `inpoint` carrying the *next* keyframe's value (the loop then
stops at the inserted element); when every keyframe lies before `inpoint`,
append `(inpoint, last value)` (the `IndexError` handler). -/
def clampInLoop (inp : ℚ) : List (ℚ × ℚ) → List (ℚ × ℚ)
  | [] => []
  | [k] => if inp > k.1 then [k, (inp, k.2)] else [k]
  | k :: k2 :: rest =>
    if inp > k.1 then
      if inp < k2.1 then k :: (inp, k2.2) :: k2 :: rest
      else k :: clampInLoop inp (k2 :: rest)
    else k :: k2 :: rest

/-- Inpoint boundary clamp: prepend `(inpoint, first value)` when the list
starts after `inpoint`, otherwise run the forward scan.  The empty case is
unreachable (the caller only enters the keyframe path on a non-empty list). -/
def clampInpoint (inp : ℚ) (kfl : List (ℚ × ℚ)) : List (ℚ × ℚ) :=
  match kfl with
  | [] => []
  | k0 :: _ => if inp < k0.1 then (inp, k0.2) :: kfl else clampInLoop inp kfl

/-- The `while self.outpoint < keyframelist[i][0]` scan, processing the
*reversed* list (last keyframe first).  Where `outpoint` falls between two
keyframes, insert `(outpoint, next keyframe value)` before the later one
(the loop condition then fails and the scan stops).  The singleton fallback
is unreachable under the caller's guards (the head keyframe position never
exceeds `outpoint` after the inpoint clamp). -/
def clampOutLoopRev (outp : ℚ) : List (ℚ × ℚ) → List (ℚ × ℚ)
  | [] => []
  | [k] => [k]
  | k :: k1 :: rest =>
    if outp < k.1 then
      if outp > k1.1 then k :: (outp, k.2) :: k1 :: rest
      else k :: clampOutLoopRev outp (k1 :: rest)
    else k :: k1 :: rest

/-- Outpoint boundary clamp: append `(outpoint, last value)` when the list
ends before `outpoint`, otherwise run the backward scan. -/
def clampOutpoint (outp : ℚ) (kfl : List (ℚ × ℚ)) : List (ℚ × ℚ) :=
  match kfl.getLast? with
  | none => []
  | some last =>
    if outp > last.1 then kfl ++ [(outp, last.2)]
    else (clampOutLoopRev outp kfl.reverse).reverse

/-- State of the threshold-crossing walk: the `audible` flag, the
`prevframe`/`thisframe` globals and the accumulated member list.  In the
source `prevframe`/`thisframe` are unassigned until first use; every read is
guarded by `audible`, so the initial values below are never observable. -/
structure WalkState where
  audible : Bool
  prevframe : ℚ
  thisframe : ℚ
  members : List Range
deriving DecidableEq, Repr

/-- The keyframe walk of `audibleframes`: skip keyframes before `inpoint`,
`break` on the first keyframe after `outpoint`, translate local positions to
global ones via `start + (keyframe - inpoint)`, and toggle the audible state
on threshold crossings (`>= threshold` is audible), closing out a `Range`
on each audible→inaudible transition. -/
def walkLoop (inp outp start threshold : ℚ) :
    List (ℚ × ℚ) → WalkState → WalkState
  | [], st => st
  | (kf, vol) :: rest, st =>
    if kf < inp then walkLoop inp outp start threshold rest st
    else if kf > outp then st
    else
      let thisframe := start + (kf - inp)
      if vol ≥ threshold then
        if st.audible then
          walkLoop inp outp start threshold rest { st with thisframe := thisframe }
        else
          walkLoop inp outp start threshold rest
            { st with audible := true, prevframe := thisframe, thisframe := thisframe }
      else
        if st.audible then
          walkLoop inp outp start threshold rest
            { audible := false, prevframe := st.prevframe, thisframe := thisframe,
              members := extendMembers st.members ⟨st.prevframe, thisframe⟩ }
        else
          walkLoop inp outp start threshold rest { st with thisframe := thisframe }

open Classical in
/-- `ClipItem.audibleframes(threshold)`.

The threshold is modelled as a bare gain number (the `isinstance(threshold,
Volume)` unwrapping step is not modelled; every claim supplies a number).
Decision order follows the source: non-audio mediatype returns `None`;
`getframerate` may raise `AttributeError` (file is `None`); with keyframes
the clamp-and-walk path runs (re-subscripting `self.getframerate()[0]`, a
`TypeError` when the framerate is `None`); with a levels effect but no
keyframes the scalar `value > threshold` comparison decides; with no levels
effect a `Gain` effect is converted through `Volume`; with neither, the whole
clip is assumed audible.  Every `Ranges(...)` construction calls
`float(framerate)` and raises `TypeError` on an absent framerate.
(`Classical` is opened only for the undecidable `ℝ` comparison in the
`Gain` branch.) -/
noncomputable def ClipItem.audibleframes (c : ClipItem) (threshold : ℚ) :
    Except PyErr (Option Ranges) :=
  if ¬ (c.mediatype = some "audio") then .ok none
  else
    match c.getframerate with
    | .error e => .error e
    | .ok frate =>
      let _r : Option ℚ :=
        match frate with
        | none => none
        | some p => p.1
      match c.getlevels with
      | some lv =>
        match lv.parameters with
        | none => .error .attributeError
        | some keyframelist =>
          if keyframelist = [] then
            match lv.value with
            | none => .error .typeError
            | some v =>
              if v > threshold then
                (Ranges.init (some ⟨c.start, c.stop⟩) _r).map some
              else (Ranges.init none _r).map some
          else
            let kfl1 := clampInpoint c.inpoint keyframelist
            let kfl2 := clampOutpoint c.outpoint kfl1
            match frate with
            | none => .error .typeError
            | some p =>
              match Ranges.init none p.1 with
              | .error e => .error e
              | .ok rs0 =>
                let fin := walkLoop c.inpoint c.outpoint c.start threshold kfl2
                  ⟨false, 0, 0, rs0.r⟩
                let members :=
                  if fin.audible then
                    extendMembers fin.members ⟨fin.prevframe, fin.thisframe⟩
                  else fin.members
                .ok (some ⟨members, rs0.framerate⟩)
      | none =>
        match c.getgain with
        | some g =>
          let vol := Volume.init none (g.value.map (fun q => (q : ℝ)))
          match vol.gain with
          | none => .error .typeError
          | some gr =>
            if gr > (threshold : ℝ) then
              (Ranges.init (some ⟨c.start, c.stop⟩) _r).map some
            else (Ranges.init none _r).map some
        | none => (Ranges.init (some ⟨c.start, c.stop⟩) _r).map some

/-- An audio `<track>`: its `enabled` text and its `clipitem` children. -/
structure Track where
  enabledText : Option String
  clips : List ClipNode
deriving DecidableEq, Repr

/-- `XmemlParser.iteraudioclips(onlypureaudio=True)` over the audio tracks:
skip explicitly disabled tracks, construct each clip, skip disabled clips,
and yield a clip when `onlypureaudio` is off or when it carries a `File`
whose mediatype is audio (a clip without a file reference is skipped).
The one-level nested-sequence flattening of the source is not modelled
(no claim exercises it); nested-sequence clips contribute nothing here. -/
def iteraudioclips (seqrate : Option (Option ℚ × Option String))
    (tracks : List Track) (onlypureaudio : Bool) : List ClipItem :=
  tracks.flatMap fun tr =>
    match tr.enabledText with
    | some s =>
      if pyUpper s = "FALSE" then []
      else trackClips seqrate tr.clips onlypureaudio
    | none => trackClips seqrate tr.clips onlypureaudio
where
  /-- The per-track clip loop. -/
  trackClips (seqrate : Option (Option ℚ × Option String))
      (clips : List ClipNode) (onlypureaudio : Bool) : List ClipItem :=
    clips.flatMap fun cn =>
      let ci := (ClipItem.init seqrate cn).1
      if ¬ ci.enabled then []
      else if ci.isnestedsequence then []
      else if ¬ onlypureaudio then [ci]
      else
        match ci.file with
        | some f => if f.mediatype = "audio" then [ci] else []
        | none => []

/-- The loader-relevant shape of a parsed document: root tag, which of the
three known sequence-containment shapes are present, the discovered
sequence's id, and the top-level `enabled` text. -/
structure XmlDoc where
  rootTag : String
  hasRootSeq : Bool
  hasProjChildrenSeq : Bool
  hasProjBinSeq : Bool
  seqId : Option String
  enabledText : Option String
deriving DecidableEq, Repr

/-- The loader state the claims observe: the sequence id stored as `name`. -/
structure ParserView where
  name : Option String
deriving DecidableEq, Repr

/-- `XmemlParser.__init__`: root-tag check, sequence discovery across the
three known shapes (failure surfaces as the caught `AttributeError` on the
never-assigned `self.root`, re-raised as `XmemlFileError`), then the
top-level `enabled` check.  Every failure raises `XmemlFileError`. -/
def XmemlParser.init (d : XmlDoc) : Except XmemlErr ParserView :=
  if d.rootTag ≠ "xmeml" then
    .error (.xmemlFileError "xmeml tag not found. This is not an XMEML file.")
  else if d.hasRootSeq || d.hasProjChildrenSeq || d.hasProjBinSeq then
    match d.enabledText with
    | some s =>
      if pyUpper s = "FALSE" then
        .error (.xmemlFileError "Sequence is not enabled. Nothing to do.")
      else .ok ⟨d.seqId⟩
    | none => .ok ⟨d.seqId⟩
  else .error (.xmemlFileError "No sequence found. Nothing to do.")

/-- The exception class of a load attempt's outcome, when it failed:
what a caller catching by type can observe. -/
def loadErrClass (r : Except XmemlErr ParserView) : Option Bool :=
  match r with
  | .error e => some e.isFileError
  | .ok _ => none

/-- The scenario clip of C1: audio clip, keyframed `audiolevels`
`[(0,0.0),(50,1.0),(150,0.0)]`, `inpoint=0`, `outpoint=200`, `start=1000`,
inside a 25 fps (PAL) sequence. -/
def c1Clip : ClipItem :=
  { name := some "c1", id := some "c1", timebase := some 25, ntsc := false,
    start := 1000, stop := 1200, inpoint := 0, outpoint := 200,
    sequenceframerate := some (some 25, some "PAL"),
    file := some ⟨"audio"⟩, mediatype := some "audio",
    isnestedsequence := false, enabled := true,
    filters := [{ name := some "Audio Levels", effectid := some "audiolevels",
                  enabled := true,
                  parameters := some [(0, 0), (50, 1), (150, 0)], value := some 0 }] }

/-- The "bad pair" shape that makes a duplicate member reachable: a later
member `b` whose span hull-contains an earlier member `a` while also
satisfying the first `overlaps` disjunct against it.  `extendMembers` never
produces such a pair, which is the inductive invariant behind duplicate
freedom. -/
def BadPair (a b : Range) : Prop :=
  b.start ≤ a.start ∧ a.start ≤ b.stop ∧ a.stop ≤ b.stop

/-- The member-list invariant maintained by `extendMembers`: along the list
(insertion order), no later member forms a `BadPair` over an earlier one and
no two members are equal. -/
def MembersInv (l : List Range) : Prop :=
  l.Pairwise fun a b => ¬ BadPair a b ∧ a ≠ b

/-- The C3 failing input: an audio clip whose containing sequence has an
unrecognized timebase, so its resolved framerate is absent, with a scalar
(keyframe-free) `audiolevels` value. -/
def c3Clip : ClipItem :=
  { name := some "c3", id := some "c3", timebase := some 45, ntsc := false,
    start := 100, stop := 300, inpoint := 0, outpoint := 200,
    sequenceframerate := none,
    file := some ⟨"audio"⟩, mediatype := some "audio",
    isnestedsequence := false, enabled := true,
    filters := [{ name := some "Audio Levels", effectid := some "audiolevels",
                  enabled := true, parameters := some [], value := some 1 }] }

/-- An audio clip with an enabled scalar `audiolevels` effect of value `v`,
spanning `[s, e)` in a sequence of framerate `fr`: the C8 clip family. -/
def scalarLevelsClip (v s e fr : ℚ) : ClipItem :=
  { name := some "scalar", id := some "scalar", timebase := some 25, ntsc := false,
    start := s, stop := e, inpoint := 0, outpoint := 200,
    sequenceframerate := some (some fr, some "seq"),
    file := some ⟨"audio"⟩, mediatype := some "audio",
    isnestedsequence := false, enabled := true,
    filters := [{ name := some "Audio Levels", effectid := some "audiolevels",
                  enabled := true, parameters := some [], value := some v }] }

/-- The C10 witness clip: an audio-mediatype clip whose `file` reference is
absent (e.g. a degenerate clip whose `<file>` id resolved to nothing). -/
def c10Clip : ClipItem :=
  { name := some "nofile", id := some "nofile", timebase := some 25, ntsc := false,
    start := 0, stop := 100, inpoint := 0, outpoint := 100,
    sequenceframerate := some (some 25, some "PAL"),
    file := none, mediatype := some "audio",
    isnestedsequence := false, enabled := true, filters := [] }

/-- The sequence framerate handed to every clip by the C4 enumeration. -/
def c4SeqRate : Option (Option ℚ × Option String) := some (some 25, some "PAL")

/-- The C4 failing clip node: both `start` and `end` are the `-1` sentinel
and there is no neighboring `transitionitem` sibling on either side. -/
def c4Node : ClipNode :=
  { name := some "badclip", id := some "bad", timebase := some 25, ntsc := false,
    start := -1, stop := -1, inpoint := 0, outpoint := 10,
    prevTransition := none, follTransition := none,
    file := some ⟨"audio"⟩, mediatype := some "audio",
    isnestedsequence := false, enabledText := none, filters := [] }

/-- An ordinary audio clip node enumerated alongside `c4Node`. -/
def c4GoodNode : ClipNode :=
  { name := some "goodclip", id := some "good", timebase := some 25, ntsc := false,
    start := 20, stop := 30, inpoint := 0, outpoint := 10,
    prevTransition := none, follTransition := none,
    file := some ⟨"audio"⟩, mediatype := some "audio",
    isnestedsequence := false, enabledText := none, filters := [] }

/-- The C4 track: the sentinel clip followed by an ordinary clip. -/
def c4Track : Track := ⟨none, [c4Node, c4GoodNode]⟩

/-- A well-rooted document in which none of the three known shapes yields a
sequence. -/
def noSeqDoc : XmlDoc :=
  { rootTag := "xmeml", hasRootSeq := false, hasProjChildrenSeq := false,
    hasProjBinSeq := false, seqId := none, enabledText := none }

/-- A document with a discoverable sequence whose top-level `enabled` text is
`FALSE`. -/
def disabledDoc : XmlDoc :=
  { rootTag := "xmeml", hasRootSeq := true, hasProjChildrenSeq := false,
    hasProjBinSeq := false, seqId := some "seq-1", enabledText := some "FALSE" }

lemma Range.extendWith_eq (r n : Range) :
    r.extendWith n = ⟨min r.start n.start, max r.stop n.stop⟩ := by
  simp only [Range.extendWith, Range.mk.injEq]
  constructor
  · rcases lt_or_le n.start r.start with h | h
    · simp [if_pos h, min_eq_right h.le]
    · simp [if_neg (not_lt.mpr h), min_eq_left h]
  · rcases lt_or_le r.stop n.stop with h | h
    · simp [if_pos h, max_eq_right h.le]
    · simp [if_neg (not_lt.mpr h), max_eq_left h]

lemma Range.overlaps_iff {r n : Range} :
    r.overlaps n = true ↔
      (n.start ≤ r.start ∧ r.start ≤ n.stop) ∨
      (r.start ≤ n.start ∧ n.start ≤ r.stop) := by
  simp [Range.overlaps]

lemma not_badPair_of_not_overlaps {a n : Range} (h : ¬ a.overlaps n = true) :
    ¬ BadPair a n := by
  rw [Range.overlaps_iff, not_or] at h
  rintro ⟨h1, h2, _⟩
  exact h.1 ⟨h1, h2⟩

lemma start_le_max_of_overlaps {r n : Range} (h : r.overlaps n = true) :
    r.start ≤ max r.stop n.stop := by
  rw [Range.overlaps_iff] at h
  rcases h with ⟨_, h2⟩ | ⟨h1, h2⟩
  · exact le_trans h2 (le_max_right _ _)
  · exact le_trans (le_trans h1 h2) (le_max_left _ _)

lemma badPair_of_grow_later {r n b : Range} (hov : r.overlaps n = true)
    (h : BadPair (r.extendWith n) b) : BadPair r b := by
  rw [Range.extendWith_eq] at h
  obtain ⟨h1, h2, h3⟩ := h
  exact ⟨le_trans h1 (min_le_left _ _),
         le_trans (start_le_max_of_overlaps hov) h3,
         le_trans (le_max_left _ _) h3⟩

lemma ne_of_grow_later {r n b : Range} (hov : r.overlaps n = true)
    (hb : ¬ BadPair r b) : r.extendWith n ≠ b := by
  intro heq
  subst heq
  refine hb (badPair_of_grow_later hov ⟨le_refl _, ?_, le_refl _⟩)
  rw [Range.extendWith_eq]
  exact le_trans (min_le_left _ _) (start_le_max_of_overlaps hov)

lemma badPair_of_grow_earlier {a r n : Range} (hmiss : ¬ a.overlaps n = true)
    (hov : r.overlaps n = true) (h : BadPair a (r.extendWith n)) : BadPair a r := by
  rw [Range.extendWith_eq] at h
  obtain ⟨h1, h2, h3⟩ := h
  simp only at h1 h2 h3
  rw [Range.overlaps_iff] at hov
  rw [Range.overlaps_iff, not_or] at hmiss
  obtain ⟨hm1, hm2⟩ := hmiss
  rcases le_or_lt n.start a.start with hna | hna
  · have hns : n.stop < a.start := by
      by_contra hx
      push_neg at hx
      exact hm1 ⟨hna, hx⟩
    have hra : r.start ≤ a.start := by
      rcases hov with ⟨_, h2o⟩ | ⟨h1o, _⟩
      · linarith
      · linarith
    have har : a.start ≤ r.stop := by
      rcases le_max_iff.mp h2 with hx | hx
      · exact hx
      · linarith
    have haz : a.stop ≤ r.stop := by
      rcases le_max_iff.mp h3 with hx | hx
      · exact hx
      · linarith
    exact ⟨hra, har, haz⟩
  · have hza : a.stop < n.start := by
      by_contra hx
      push_neg at hx
      exact hm2 ⟨hna.le, hx⟩
    have hra : r.start ≤ a.start := by
      rcases min_le_iff.mp h1 with hx | hx
      · exact hx
      · linarith
    rcases hov with ⟨h1o, h2o⟩ | ⟨h1o, h2o⟩
    · exact absurd (le_trans h1o hra) (not_le.mpr hna)
    · exact ⟨hra, by linarith, by linarith⟩

lemma ne_of_grow_earlier {a r n : Range} (hmiss : ¬ a.overlaps n = true)
    (hov : r.overlaps n = true) (hb : ¬ BadPair a r) : a ≠ r.extendWith n := by
  intro heq
  apply hb
  apply badPair_of_grow_earlier hmiss hov
  rw [heq]
  refine ⟨le_refl _, ?_, le_refl _⟩
  rw [Range.extendWith_eq]
  exact le_trans (min_le_left _ _) (start_le_max_of_overlaps hov)

lemma extendMembers_aux {n : Range} :
    ∀ {l : List Range} {a : Range}, a ≠ n → ¬ a.overlaps n = true →
      (∀ b ∈ l, ¬ BadPair a b ∧ a ≠ b) →
      ∀ b' ∈ extendMembers l n, ¬ BadPair a b' ∧ a ≠ b' := by
  intro l
  induction l with
  | nil =>
    intro a hne hmiss _ b' hb'
    simp only [extendMembers, List.mem_singleton] at hb'
    subst hb'
    exact ⟨not_badPair_of_not_overlaps hmiss, hne⟩
  | cons r rs ih =>
    intro a hne hmiss hall b' hb'
    by_cases hr : r = n
    · rw [show extendMembers (r :: rs) n = r :: rs by simp [extendMembers, hr]] at hb'
      exact hall b' hb'
    · by_cases hov : r.overlaps n = true
      · rw [show extendMembers (r :: rs) n = r.extendWith n :: rs by
          simp [extendMembers, hr, hov]] at hb'
        rcases List.mem_cons.mp hb' with rfl | hmem
        · exact ⟨fun hbp =>
            (hall r (List.mem_cons_self r rs)).1 (badPair_of_grow_earlier hmiss hov hbp),
            ne_of_grow_earlier hmiss hov (hall r (List.mem_cons_self r rs)).1⟩
        · exact hall _ (List.mem_cons_of_mem _ hmem)
      · rw [show extendMembers (r :: rs) n = r :: extendMembers rs n by
          simp [extendMembers, hr, hov]] at hb'
        rcases List.mem_cons.mp hb' with rfl | hmem
        · exact hall _ (List.mem_cons_self _ _)
        · exact ih hne hmiss (fun b hb => hall b (List.mem_cons_of_mem _ hb)) b' hmem

lemma membersInv_extend (n : Range) :
    ∀ l : List Range, MembersInv l → MembersInv (extendMembers l n) := by
  intro l
  induction l with
  | nil =>
    intro _
    simp [extendMembers, MembersInv]
  | cons r rs ih =>
    intro h
    rw [MembersInv, List.pairwise_cons] at h
    obtain ⟨hhead, htail⟩ := h
    by_cases hr : r = n
    · rw [show extendMembers (r :: rs) n = r :: rs by simp [extendMembers, hr]]
      rw [MembersInv, List.pairwise_cons]
      exact ⟨hhead, htail⟩
    · by_cases hov : r.overlaps n = true
      · rw [show extendMembers (r :: rs) n = r.extendWith n :: rs by
          simp [extendMembers, hr, hov]]
        rw [MembersInv, List.pairwise_cons]
        refine ⟨fun b hb => ⟨fun hbp => (hhead b hb).1 (badPair_of_grow_later hov hbp),
          ne_of_grow_later hov (hhead b hb).1⟩, htail⟩
      · rw [show extendMembers (r :: rs) n = r :: extendMembers rs n by
          simp [extendMembers, hr, hov]]
        rw [MembersInv, List.pairwise_cons]
        exact ⟨extendMembers_aux hr hov hhead, ih htail⟩

lemma membersInv_foldl (ns : List Range) :
    ∀ l, MembersInv l → MembersInv (ns.foldl extendMembers l) := by
  induction ns with
  | nil => exact fun l h => h
  | cons n ns ih => exact fun l h => ih _ (membersInv_extend n l h)

/-- C1: for an audio clip with keyframed audiolevels
`[(0,0.0),(50,1.0),(150,0.0)]`, `inpoint=0`, `outpoint=200`, `start=1000` and
threshold `0.5`, the keyframe list is boundary-padded to cover
`outpoint=200` at value `0.0`, and `audibleframes` returns a `Ranges` whose
single member is `Range((1050,1150))`: each local keyframe position `p` maps
to the global position `start + (p - inpoint)` and `>= threshold` counts as
audible. -/
theorem c1_keyframed_audibleframes :
    clampOutpoint 200 (clampInpoint 0 [(0, 0), (50, 1), (150, 0)]) =
      [(0, 0), (50, 1), (150, 0), (200, 0)] ∧
    c1Clip.audibleframes (1/2) = .ok (some ⟨[⟨1050, 1150⟩], 25⟩) := by
  constructor
  · decide
  · norm_num [ClipItem.audibleframes, c1Clip, ClipItem.getframerate,
      ClipItem.getlevels, ClipItem.getgain, Ranges.init, pyFloat,
      clampInpoint, clampInLoop, clampOutpoint, clampOutLoopRev,
      walkLoop, extendMembers, Range.overlaps, Range.extendWith, List.find?]
    intro h
    simp at h

/-- C2 (counterexample): the claimed invariant — after any sequence of
`Ranges.extend` calls no two members overlap or are equal — fails at the
concrete insertion sequence `(0,1)`, `(10,11)`, `(0,11)`: the third insert
grows the first member to `(0,11)` without re-scanning, leaving it
overlapping the member `(10,11)`. -/
theorem c2_overlap_counterexample :
    List.foldl extendMembers [] [⟨0, 1⟩, ⟨10, 11⟩, ⟨0, 11⟩] =
      [⟨0, 11⟩, ⟨10, 11⟩] ∧
    Range.overlaps ⟨0, 11⟩ ⟨10, 11⟩ = true ∧
    (⟨0, 11⟩ : Range) ≠ ⟨10, 11⟩ := by decide

/-- C2 (amended): after every sequence of `Ranges.extend` calls with complete
`Range` arguments, no two members of the collection are equal — but two
members may overlap, because a member grown by a merge is not re-checked
against the others. -/
theorem c2_extend_members_nodup (ns : List Range) :
    (ns.foldl extendMembers []).Nodup := by
  have h := membersInv_foldl ns [] (by simp [MembersInv])
  exact List.Pairwise.imp (fun hab => hab.2) h

/-- C7: inserting `Range((0,10))` then `Range((5,15))` into an empty `Ranges`
yields the single merged member `(0,15)` (the overlapping insert grows the
existing member in place); inserting `Range((0,5))` then `Range((10,15))`
yields two disjoint members of total length `10` (the non-overlapping insert
is appended as a new member). -/
theorem c7_extend_merge_behavior :
    extendMembers (extendMembers [] ⟨0, 10⟩) ⟨5, 15⟩ = [⟨0, 15⟩] ∧
    extendMembers (extendMembers [] ⟨0, 5⟩) ⟨10, 15⟩ = [⟨0, 5⟩, ⟨10, 15⟩] ∧
    Range.overlaps ⟨0, 5⟩ ⟨10, 15⟩ = false ∧
    Range.overlaps ⟨10, 15⟩ ⟨0, 5⟩ = false ∧
    (([⟨0, 5⟩, ⟨10, 15⟩] : List Range).map Range.len).sum = 10 := by
  refine ⟨by decide, by decide, by decide, by decide, ?_⟩
  norm_num [Range.len]

/-- C3 (code evaluated at the failing input): for an audio clip whose
framerate resolves to absent (unrecognized sequence timebase) and whose
levels are scalar, `audibleframes` raises `TypeError` — `float(None)` inside
the `Ranges` constructor — instead of returning a suppressed result; the
uncaught exception aborts a whole-project `audibleranges` scan. -/
theorem c3_absent_framerate_raises :
    c3Clip.audibleframes 0 = .error .typeError := by
  norm_num [ClipItem.audibleframes, c3Clip, ClipItem.getframerate,
    ClipItem.getlevels, ClipItem.getgain, Ranges.init, pyFloat, List.find?,
    Except.map]

/-- C8 (counterexample): a scalar `audiolevels` value exactly equal to the
threshold yields an *empty* `Ranges`, not the clip's full `[start,end)` —
the scalar path compares with strict `>`, so gain equal to the threshold
does not count as audible there. -/
theorem c8_equal_threshold_counterexample :
    (scalarLevelsClip (1/2) 1000 2000 25).audibleframes (1/2) =
      .ok (some ⟨[], 25⟩) ∧
    (scalarLevelsClip (1/2) 1000 2000 25).audibleframes (1/2) ≠
      .ok (some ⟨[⟨1000, 2000⟩], 25⟩) := by
  have h : (scalarLevelsClip (1/2) 1000 2000 25).audibleframes (1/2) =
      .ok (some ⟨[], 25⟩) := by
    norm_num [ClipItem.audibleframes, scalarLevelsClip, ClipItem.getframerate,
      ClipItem.getlevels, ClipItem.getgain, Ranges.init, pyFloat, List.find?,
      Except.map]
  refine ⟨h, ?_⟩
  rw [h]
  simp

/-- C8 (amended): for an audio clip whose enabled `audiolevels` effect
carries a scalar value (no keyframes), `audibleframes` returns the clip's
full `[start,end)` as one `Range` exactly when the value is *strictly
greater* than the threshold, and an empty `Ranges` otherwise — in
particular, a value equal to the threshold is not audible on this path. -/
theorem c8_scalar_strict_threshold (v thr s e fr : ℚ) :
    (scalarLevelsClip v s e fr).audibleframes thr =
      .ok (some ⟨if v > thr then [⟨s, e⟩] else [], fr⟩) := by
  by_cases h : v > thr
  · simp [ClipItem.audibleframes, scalarLevelsClip, ClipItem.getframerate,
      ClipItem.getlevels, ClipItem.getgain, Ranges.init, pyFloat, List.find?,
      extendMembers, Except.map, h]
  · simp [ClipItem.audibleframes, scalarLevelsClip, ClipItem.getframerate,
      ClipItem.getlevels, ClipItem.getgain, Ranges.init, pyFloat, List.find?,
      extendMembers, Except.map, h]

/-- C9: the framerate table maps `(30, ntsc=true)` to `(29.97, "NTSC/HD")`,
`(30, ntsc=false)` to `(30, "Video/HD")` and `(25, any ntsc)` to
`(25, "PAL")`; an absent timebase yields `(absent, absent)`; and every
timebase outside `{24, 25, 30, 50, 60}` yields an absent result without
raising, reporting exactly one warning-level diagnostic. -/
theorem c9_getframerate_table (tb : ℚ) (b : Bool)
    (h24 : tb ≠ 24) (h25 : tb ≠ 25) (h30 : tb ≠ 30)
    (h50 : tb ≠ 50) (h60 : tb ≠ 60) :
    getframerate (some 30) true = (some (some (29.97 : ℚ), some "NTSC/HD"), []) ∧
    getframerate (some 30) false = (some (some 30, some "Video/HD"), []) ∧
    getframerate (some 25) b = (some (some 25, some "PAL"), []) ∧
    getframerate none b = (some (none, none),
      [(.debug, "getframerate: timebase is None, returning None")]) ∧
    getframerate (some tb) b =
      (none, [(.warning, "getframerate: got an unhandled timebase: %r (ntsc=%r)")]) := by
  refine ⟨by norm_num [getframerate], by norm_num [getframerate],
    by norm_num [getframerate], rfl, by simp [getframerate, h24, h25, h30, h50, h60]⟩

/-- Witness for C9 at the concrete unhandled timebase `17`. -/
theorem c9_getframerate_table_witness :
    ((17 : ℚ) ≠ 24 ∧ (17 : ℚ) ≠ 25 ∧ (17 : ℚ) ≠ 30 ∧ (17 : ℚ) ≠ 50 ∧ (17 : ℚ) ≠ 60) ∧
    (getframerate (some 30) true = (some (some (29.97 : ℚ), some "NTSC/HD"), []) ∧
     getframerate (some 30) false = (some (some 30, some "Video/HD"), []) ∧
     getframerate (some 25) true = (some (some 25, some "PAL"), []) ∧
     getframerate none true = (some (none, none),
       [(.debug, "getframerate: timebase is None, returning None")]) ∧
     getframerate (some 17) true =
       (none, [(.warning, "getframerate: got an unhandled timebase: %r (ntsc=%r)")])) :=
  ⟨⟨by norm_num, by norm_num, by norm_num, by norm_num, by norm_num⟩,
   c9_getframerate_table 17 true (by norm_num) (by norm_num) (by norm_num)
     (by norm_num) (by norm_num)⟩

/-- C10: for every clip item whose file reference is absent,
`ClipItem.getframerate` — and therefore `audibleframes`, which invokes it on
every audio-mediatype clip — raises `AttributeError` from the attribute
access on the absent file, rather than returning an absent result or falling
back to the clip's own declared rate. -/
theorem c10_absent_file_raises (c : ClipItem) (thr : ℚ)
    (hf : c.file = none) (hm : c.mediatype = some "audio") :
    c.getframerate = .error .attributeError ∧
    c.audibleframes thr = .error .attributeError := by
  have hg : c.getframerate = .error .attributeError := by
    simp [ClipItem.getframerate, hf]
  refine ⟨hg, ?_⟩
  simp [ClipItem.audibleframes, hm, hg]

/-- Witness for C10 at the concrete file-less audio clip `c10Clip`. -/
theorem c10_absent_file_raises_witness :
    c10Clip.file = none ∧ c10Clip.mediatype = some "audio" ∧
    c10Clip.getframerate = .error .attributeError ∧
    c10Clip.audibleframes 1 = .error .attributeError :=
  ⟨rfl, rfl, (c10_absent_file_raises c10Clip 1 rfl rfl).1,
   (c10_absent_file_raises c10Clip 1 rfl rfl).2⟩

/-- C5 (counterexample): `Volume(decibel=0.0)` does *not* yield `gain = 1.0`
— a zero decibel argument is falsy, so the conversion branch is skipped and
`gain` stays absent. -/
theorem c5_zero_decibel_counterexample :
    (Volume.init none (some 0)).gain = none ∧
    (Volume.init none (some 0)).gain ≠ some 1 := by
  constructor
  · simp [Volume.init]
  · simp [Volume.init]

/-- C5 (amended): `Volume(gain=1.0)` yields `decibel = 0.0` via
`decibel = 20*log10(gain)`, and `Volume(decibel=d)` yields
`gain = 10^(d/20)` for every *nonzero* `d`; but `Volume(decibel=0.0)` leaves
`gain` absent, because a zero argument is falsy and skips the conversion;
passing neither input leaves both fields absent. -/
theorem c5_volume_conversions (d : ℝ) (hd : d ≠ 0) :
    (Volume.init (some 1) none).decibel = some 0 ∧
    (Volume.init none (some 0)).gain = none ∧
    (Volume.init none none).gain = none ∧
    (Volume.init none none).decibel = none ∧
    (Volume.init none (some d)).gain = some ((10 : ℝ) ^ (d / 20)) := by
  refine ⟨?_, ?_, ?_, ?_, ?_⟩
  · simp [Volume.init, Real.logb_one]
  · simp [Volume.init]
  · simp [Volume.init]
  · simp [Volume.init]
  · simp [Volume.init, hd]

/-- Witness for C5 at the concrete decibel value `-20`. -/
theorem c5_volume_conversions_witness :
    ((-20 : ℝ) ≠ 0) ∧
    ((Volume.init (some 1) none).decibel = some 0 ∧
     (Volume.init none (some 0)).gain = none ∧
     (Volume.init none none).gain = none ∧
     (Volume.init none none).decibel = none ∧
     (Volume.init none (some (-20))).gain = some ((10 : ℝ) ^ ((-20 : ℝ) / 20))) :=
  ⟨by norm_num, c5_volume_conversions (-20) (by norm_num)⟩

lemma pyUpper_FALSE : pyUpper "FALSE" = "FALSE" := by decide

/-- C6 (counterexample): both failure conditions raise the *same* exception
type.  A document with no discoverable sequence and a document whose
top-level sequence is disabled both fail with `XmemlFileError` — only the
message differs — so a caller cannot distinguish the two by error type. -/
theorem c6_error_type_counterexample :
    XmemlParser.init noSeqDoc =
      .error (.xmemlFileError "No sequence found. Nothing to do.") ∧
    XmemlParser.init disabledDoc =
      .error (.xmemlFileError "Sequence is not enabled. Nothing to do.") ∧
    loadErrClass (XmemlParser.init noSeqDoc) =
      loadErrClass (XmemlParser.init disabledDoc) := by
  refine ⟨rfl, ?_, ?_⟩ <;>
    simp [XmemlParser.init, noSeqDoc, disabledDoc, loadErrClass, XmemlErr.isFileError,
      pyUpper_FALSE]

/-- C6 (amended): loading a document with no discoverable sequence fails,
and loading one whose top-level sequence is disabled fails, but both raise
`XmemlFileError` — the same exception class — so the two conditions are
distinguishable only by message text, not by error type. -/
theorem c6_same_error_class :
    loadErrClass (XmemlParser.init noSeqDoc) = some true ∧
    loadErrClass (XmemlParser.init disabledDoc) = some true ∧
    XmemlParser.init noSeqDoc ≠ XmemlParser.init disabledDoc := by
  refine ⟨rfl, ?_, ?_⟩ <;>
    simp [XmemlParser.init, noSeqDoc, disabledDoc, loadErrClass, XmemlErr.isFileError,
      pyUpper_FALSE]

/-- C4 (counterexample): a clip whose `start` and `end` are both `-1` with no
neighboring `transitionitem` is *not* excluded from the enumerator's output
and nothing is raised — construction completes (keeping the sentinels) and
the clip is yielded alongside the ordinary clip; there is no
`MissingTransitionError` in the module at all. -/
theorem c4_missing_transition_counterexample :
    (ClipItem.init c4SeqRate c4Node).1.start = -1 ∧
    (ClipItem.init c4SeqRate c4Node).1.stop = -1 ∧
    iteraudioclips c4SeqRate [c4Track] true =
      [(ClipItem.init c4SeqRate c4Node).1, (ClipItem.init c4SeqRate c4GoodNode).1] := by
  decide

/-- C4 (amended): a clip whose `start` and `end` are both the `-1` sentinel
with no neighboring `transitionitem` has the internal
`XmemlNoTransitionError` caught during construction: a warning is logged for
each unresolved endpoint, the sentinels are kept, and the clip remains in
the enumerator's output while enumeration of the remaining clips
continues. -/
theorem c4_missing_transition_warns_and_includes :
    (ClipItem.init c4SeqRate c4Node).2 =
      [(.warning,
        "Could not figure out start point of clip. Please double check this clip: %r"),
       (.warning,
        "Could not figure out end point of clip. Please double check this clip: %r")] ∧
    (ClipItem.init c4SeqRate c4Node).1.start = -1 ∧
    (ClipItem.init c4SeqRate c4Node).1.stop = -1 ∧
    (ClipItem.init c4SeqRate c4Node).1 ∈ iteraudioclips c4SeqRate [c4Track] true ∧
    (ClipItem.init c4SeqRate c4GoodNode).1 ∈ iteraudioclips c4SeqRate [c4Track] true := by
  decide

end Xmeml
